import Mathlib

/-!
Verification of the cartographic composition core of the `picture-out`
repository (`src/plotting.py`, `src/geo_io.py`, `src/colormaps.py`).

The Python code is shallowly embedded: numpy float arrays become grids of
`Option ℚ` cells (`none` is the NaN sentinel meaning "not plotted", `some v`
a finite value; float arithmetic is modelled by exact rational arithmetic,
and IEEE infinities are out of scope since the code only ever introduces NaN
as its no-data sentinel).  External library calls (rasterio reprojection,
boundary rasterization, matplotlib's colormap registry, the OS file system)
are modelled as explicit inputs to the embedded functions, as described in
each definition's documentation.
-/

namespace PictureOut

/-- A raster cell: `none` models the NaN sentinel, `some v` a finite value. -/
abbrev Cell := Option ℚ

/-! ### Grid ingestion (`read_project_clip` in `src/geo_io.py` and
`src/plotting.py`)

`read_project_clip(raster_path, border_gdf, dst_crs, year_start, year_end,
as_yearly)` opens the raster, replaces the declared no-data value by NaN,
reprojects band 1 into the destination CRS (rasterio `reproject`, with
`dst_nodata=np.nan`; `geo_io.py` uses bilinear and `plotting.py` nearest
resampling — the two copies are otherwise identical), rasterizes the boundary
into a same-shape boolean mask (`geometry_mask(..., invert=True)`, cells
inside the boundary are `True`), and then computes
`arr = np.where(mask, arr, np.nan)` followed, when `as_yearly`, by
`arr = arr / float(span)` with `span = max(1, year_end - year_start + 1)`.

The embedding starts after the external rasterio/geopandas calls: `arr` is
the reprojected band (an arbitrary `h × w` grid) and `mask` the rasterized
boundary mask (an arbitrary boolean grid of the same shape, which rasterio
guarantees via `out_shape=arr.shape`). -/

/-- The divisor `span = max(1, int(year_end) - int(year_start) + 1)` from
`read_project_clip`. -/
def annual_span (year_start year_end : ℤ) : ℤ :=
  max 1 (year_end - year_start + 1)

/-- The masking step `np.where(mask, arr, np.nan)`: cells outside the boundary mask become
the NaN sentinel. -/
def mask_clip {h w : ℕ} (mask : Fin h → Fin w → Bool)
    (arr : Fin h → Fin w → Cell) : Fin h → Fin w → Cell :=
  fun i j => if mask i j then arr i j else none

/-- The masking and annualization steps of `read_project_clip`:
`arr = np.where(mask, arr, np.nan); if as_yearly: arr = arr / float(span)`.
Dividing NaN by the span leaves NaN (`Option.map` on `none`), and dividing a
finite value by the span (an integer ≥ 1) yields a finite value. -/
def read_project_clip {h w : ℕ} (arr : Fin h → Fin w → Cell)
    (mask : Fin h → Fin w → Bool) (year_start year_end : ℤ)
    (as_yearly : Bool) : Fin h → Fin w → Cell :=
  fun i j =>
    let v := mask_clip mask arr i j
    if as_yearly then v.map (fun x => x / (annual_span year_start year_end : ℚ))
    else v

/-! ### Normalization (`_make_single_map_impl` and `_make_grid_map_impl` in
`src/plotting.py`)

For value-range computation the 2-D shape of a grid is irrelevant (numpy's
`nanmin`/`nanmax`/`nanpercentile` reduce over all cells), so a panel grid is
flattened to a `List Cell`. -/

/-- The finite (non-NaN) cells of a grid, in order:
`arr[np.isfinite(arr)]`. -/
def finite_vals (g : List Cell) : List ℚ :=
  g.filterMap id

/-- Model of `np.nanmin` over a list of values: the minimum of the finite entries,
`none` (numpy: NaN) when there are none. -/
def nanminL : List ℚ → Option ℚ
  | [] => none
  | x :: xs =>
    match nanminL xs with
    | none => some x
    | some m => some (min x m)

/-- Model of `np.nanmax` over a list of values: the maximum of the finite entries,
`none` (numpy: NaN) when there are none. -/
def nanmaxL : List ℚ → Option ℚ
  | [] => none
  | x :: xs =>
    match nanmaxL xs with
    | none => some x
    | some m => some (max x m)

/-- Per-grid `float(np.nanmin(a))`: NaN (`none`) exactly when the
grid has no finite cell. -/
def grid_nanmin (g : List Cell) : Option ℚ := nanminL (finite_vals g)

/-- Per-grid `float(np.nanmax(a))`. -/
def grid_nanmax (g : List Cell) : Option ℚ := nanmaxL (finite_vals g)

/-- Shared-mode `_np.nanmin([_np.nanmin(a) for a in arrs])` (line 965 of
`src/plotting.py`): the outer `nanmin` ignores the NaN produced by grids with
no finite cell, which the `filterMap` drops. -/
def global_nanmin (gs : List (List Cell)) : Option ℚ :=
  nanminL (gs.filterMap grid_nanmin)

/-- Shared-mode `_np.nanmax([_np.nanmax(a) for a in arrs])` (line 966 of
`src/plotting.py`). -/
def global_nanmax (gs : List (List Cell)) : Option ℚ :=
  nanmaxL (gs.filterMap grid_nanmax)

/-- The degenerate-range guard shared by the single-map and shared-mode
paths (`src/plotting.py` lines 842-843 and 968-969):
`if not np.isfinite(vmin) or not np.isfinite(vmax) or vmin >= vmax:
  vmin, vmax = 0.0, 1.0`.
`none` models a non-finite (NaN) bound. -/
def clamp_range : Option ℚ × Option ℚ → ℚ × ℚ
  | (some a, some b) => if a < b then (a, b) else (0, 1)
  | _ => (0, 1)

/-- The computed (pre-guard) range of `_make_single_map_impl`
(lines 838-841): `vmin = float(np.nanmin(arr))` when no user `vmin` is given,
and likewise for `vmax`. -/
def single_map_range_core (arr : List Cell) (vmin0 vmax0 : Option ℚ) :
    Option ℚ × Option ℚ :=
  (match vmin0 with
   | some v => some v
   | none => grid_nanmin arr,
   match vmax0 with
   | some v => some v
   | none => grid_nanmax arr)

/-- The single-map value range after the degenerate-range guard
(lines 838-843). -/
def single_map_range (arr : List Cell) (vmin0 vmax0 : Option ℚ) : ℚ × ℚ :=
  clamp_range (single_map_range_core arr vmin0 vmax0)

/-- The computed (pre-guard) shared range of `_make_grid_map_impl`
(lines 965-967):
`global_vmin = float(nanmin(...)) if arrs else 0.0`,
`_auto_vmax  = float(nanmax(...)) if arrs else 1.0`,
`global_vmax = float(share_vmax) if (share_vmax is not None) else _auto_vmax`. -/
def shared_range_core (gs : List (List Cell)) (share_vmax : Option ℚ) :
    Option ℚ × Option ℚ :=
  let gvmin : Option ℚ := if gs.isEmpty then some 0 else global_nanmin gs
  let autov : Option ℚ := if gs.isEmpty then some 1 else global_nanmax gs
  let gvmax : Option ℚ :=
    match share_vmax with
    | some v => some v
    | none => autov
  (gvmin, gvmax)

/-- The shared value range after the degenerate-range guard
(lines 965-969). -/
def shared_range (gs : List (List Cell)) (share_vmax : Option ℚ) : ℚ × ℚ :=
  clamp_range (shared_range_core gs share_vmax)

/-- Model of `np.nanpercentile(xs, q)` with numpy's default linear interpolation over
the sorted values: virtual index `q/100 * (n-1)`, linearly interpolating
between the two neighbouring order statistics.  numpy raises for `q`
outside `[0, 100]`; callers of this model pass `0 ≤ q ≤ 100` (the GUI's
percentile spinbox), so only the in-range behaviour is modelled. -/
def nanpercentile (xs : List ℚ) (q : ℚ) : Option ℚ :=
  let s := xs.mergeSort (fun a b => a ≤ b)
  match s with
  | [] => none
  | _ :: _ =>
    let n := s.length
    let idx : ℚ := q / 100 * ((n : ℚ) - 1)
    let lo : ℕ := ⌊idx⌋.toNat
    let frac : ℚ := idx - (lo : ℚ)
    let vlo := s.getD lo 0
    let vhi := s.getD (lo + 1) vlo
    some (vlo + frac * (vhi - vlo))

/-- The computed (pre-guard) per-panel range of `_make_grid_map_impl`
(lines 1023-1029):
`vmin_i = float(nanmin(arr)) if isfinite(arr).any() else 0.0`;
`vmax_i = float(nanmax(arr)) if isfinite(arr).any() else 1.0` when
`per_use_auto_vmax or per_vmax_percentile is None or not isfinite(arr).any()`,
else `vmax_i = float(nanpercentile(valid, pct)) if valid.size else 1.0` with
`valid = arr[np.isfinite(arr)]`. -/
def panel_range_core (arr : List Cell) (per_use_auto_vmax : Bool)
    (per_vmax_percentile : Option ℚ) : ℚ × ℚ :=
  let valid := finite_vals arr
  let vmin_i : ℚ := if valid.isEmpty then 0 else (nanminL valid).getD 0
  let vmax_i : ℚ :=
    if per_use_auto_vmax || per_vmax_percentile.isNone || valid.isEmpty then
      if valid.isEmpty then 1 else (nanmaxL valid).getD 1
    else
      if valid.isEmpty then 1
      else (nanpercentile valid (per_vmax_percentile.getD 0)).getD 1
  (vmin_i, vmax_i)

/-- The per-panel value range after the degenerate-range guard
(lines 1030-1031): `vmin_i` and `vmax_i` are always finite rationals here
(minima, maxima and percentiles of finite cells, or the `0.0`/`1.0`
defaults), so the guard reduces to `vmin_i >= vmax_i`. -/
def panel_range (arr : List Cell) (per_use_auto_vmax : Bool)
    (per_vmax_percentile : Option ℚ) : ℚ × ℚ :=
  let c := panel_range_core arr per_use_auto_vmax per_vmax_percentile
  if c.1 < c.2 then c else (0, 1)

/-! ### Colorbar ticks (`src/plotting.py` lines 864-866, 1064-1067 and
1164-1167)

All three colorbar paths compute `ticks = np.linspace(vmin, vmax, N)` and
then force the endpoints with `ticks[0], ticks[-1] = vmin, vmax`. -/

/-- Model of `np.linspace(a, b, n)` (with the default `endpoint=True`):
`n` samples `a + (b - a) * i / (n - 1)` for `i = 0, ..., n-1`.
For `n = 1` numpy returns `[a]`, matched here because the rational
`0 / 0 = 0`. -/
def linspace (a b : ℚ) (n : ℕ) : List ℚ :=
  (List.range n).map (fun i : ℕ => a + (b - a) * (i : ℚ) / ((n : ℚ) - 1))

/-- The tick computation `ticks = np.linspace(vmin, vmax, n); ticks[0], ticks[-1] = vmin, vmax`
(`ticks[-1]` is index `n - 1`). -/
def colorbar_ticks (a b : ℚ) (n : ℕ) : List ℚ :=
  ((linspace a b n).set 0 a).set (n - 1) b

/-! ### Shared decorations in the panel loop (`_make_grid_map_impl`,
`src/plotting.py` lines 1019 and 1073-1105)

The driver iterates `for i, ... in enumerate(zip(axes, arrs, exts))` over the
`n = len(tif_list)` panels, which the `GridSpec` indexing
`gs[i // ncols, i % ncols]` lays out in reading order.  Inside the loop the
scale bar is drawn on panel `i` iff `(not use_shared_scale) or
i == len(tif_list) - 1`, and identically for the north indicator with
`use_shared_north`. -/

/-- Whether the scale-bar branch draws on panel `i` of `n`
(lines 1073-1089). -/
def scale_bar_drawn (n : ℕ) (use_shared_scale : Bool) (i : ℕ) : Bool :=
  if use_shared_scale then decide (i = n - 1) else true

/-- Whether the north-indicator branch draws on panel `i` of `n`
(lines 1091-1105). -/
def north_drawn (n : ℕ) (use_shared_north : Bool) (i : ℕ) : Bool :=
  if use_shared_north then decide (i = n - 1) else true

/-- The panels (in loop order `0, ..., n-1`) on which a decoration with
per-panel decision `p` is drawn. -/
def drawn_panels (n : ℕ) (p : ℕ → Bool) : List ℕ :=
  (List.range n).filter p

/-- The `(row, col)` position of panel `i`: `gs[i // ncols, i % ncols]`
(line 1017). -/
def panel_pos (ncols i : ℕ) : ℕ × ℕ :=
  (i / ncols, i % ncols)

/-! ### Path resolution (`resolve_path` in `src/geo_io.py` lines 11-19 and
`src/plotting.py` lines 75-83)

The file system is modelled as the list `fs` of existing file paths:
`os.path.exists(p)` is `p ∈ fs` and `glob.glob(pattern)` returns the members
of `fs` matching the pattern (in unspecified order; the code sorts them).
`os.path.abspath` absolutizes an existing path; on the model's already
absolute paths it is the identity. -/

/-- The wildcard test `any(ch in path_pattern for ch in "*?")`. -/
def has_wildcard (p : String) : Bool :=
  p.toList.any (fun c => c = '*' || c = '?')

/-- The suffixes of a character list, longest first (including the list
itself and `[]`). -/
def suffixes : List Char → List (List Char)
  | [] => [[]]
  | c :: s => (c :: s) :: suffixes s

/-- fnmatch-style wildcard matching used by `glob.glob`: `*` matches any
(possibly empty) character sequence, `?` any single character, any other
pattern character only itself.  A `*` consumes an arbitrary prefix, i.e. the
rest of the pattern must match some suffix of the string. -/
def globMatch : List Char → List Char → Bool
  | [], s => s.isEmpty
  | '*' :: ps, s => (suffixes s).any (fun t => globMatch ps t)
  | '?' :: ps, s =>
    (match s with
     | [] => false
     | _ :: s' => globMatch ps s')
  | c :: ps, s =>
    (match s with
     | [] => false
     | d :: s' => c = d && globMatch ps s')

/-- The files of `fs` that `glob.glob(pat)` returns (unsorted). -/
def glob_matches (fs : List String) (pat : String) : List String :=
  fs.filter (fun f => globMatch pat.toList f.toList)

/-- Byte-lexicographic `≤` on strings, the order Python's `sorted` uses. -/
def lexLe : List Char → List Char → Bool
  | [], _ => true
  | _ :: _, [] => false
  | a :: as, b :: bs => if a = b then lexLe as bs else decide (a < b)

/-- Insert into a lexicographically sorted list of strings. -/
def insertSorted (x : String) : List String → List String
  | [] => [x]
  | y :: ys => if lexLe x.toList y.toList then x :: y :: ys
               else y :: insertSorted x ys

/-- Model of `sorted(...)` on a list of strings (insertion sort; Python's sort is
byte-lexicographic on these ASCII paths). -/
def sortStrings (l : List String) : List String :=
  l.foldr insertSorted []

/-- Model of `os.path.abspath` on the model's already absolute paths. -/
def abspath (p : String) : String := p

/-- The path resolver `resolve_path(path_pattern)`: with a wildcard, `sorted(glob.glob(...))`;
an empty match list raises `FileNotFoundError("未找到匹配：...")`, otherwise
the first (sorted) match is returned.  Without a wildcard, a missing file
raises `FileNotFoundError("文件不存在：...")`, otherwise the absolute path is
returned.  Raised exceptions are modelled by `Except.error` carrying the
message. -/
def resolve_path (fs : List String) (pat : String) : Except String String :=
  if has_wildcard pat then
    match sortStrings (glob_matches fs pat) with
    | [] => Except.error ("未找到匹配：" ++ pat)
    | m :: _ => Except.ok (abspath m)
  else
    if pat ∈ fs then Except.ok (abspath pat)
    else Except.error ("文件不存在：" ++ pat)

/-! ### Palette resolution (`src/colormaps.py`)

`CMAP_REGISTRY` maps a key either to a Matplotlib colormap name (`"mpl"`) or
to an ordered list of hex color breakpoints (`"colors"`).  `resolve_cmap`
first consults the module-global object cache `_CMAP_OBJECT_CACHE`, then the
registry; an unregistered key is tried as a Matplotlib colormap name and on
failure falls back to `mpl_cm.get_cmap("viridis")`.  Matplotlib is the
external collaborator: its registry of known colormap names is the model
parameter `known`, and `mpl_cm.get_cmap(name)` succeeds exactly on known
names.  Matplotlib's registry always contains `"viridis"`, which the
`"viridis" ∈ known` hypotheses of the theorems record.  The display-name and
group strings of the registry entries are GUI labels that never influence
resolution and are omitted from the entry model. -/

/-- A `CMAP_REGISTRY` entry: `{"mpl": name}` or `{"colors": [hex, ...]}`. -/
inductive CmapEntry
  | mpl (name : String)
  | colors (cs : List String)
deriving DecidableEq

/-- A resolved Matplotlib colormap object: either a named built-in colormap
or `LinearSegmentedColormap.from_list(key, colors, N=256)`.  Equal `Cmap`
values are identical lookup tables, so they produce identical colors for
identical input fractions. -/
inductive Cmap
  | mplNamed (name : String)
  | segmented (key : String) (cs : List String)
deriving DecidableEq

/-- The registry `CMAP_REGISTRY` from `src/colormaps.py` (keys and color data; the 57
entries in source order). -/
def CMAP_REGISTRY : List (String × CmapEntry) := [
  ("seq_viridis", .mpl "viridis"),
  ("seq_plasma", .mpl "plasma"),
  ("seq_inferno", .mpl "inferno"),
  ("seq_magma", .mpl "magma"),
  ("seq_cividis", .mpl "cividis"),
  ("seq_turbo", .mpl "turbo"),
  ("seq_ylorrd", .mpl "YlOrRd"),
  ("seq_ord", .mpl "OrRd"),
  ("seq_ylgn", .mpl "YlGn"),
  ("seq_ylgnbu", .mpl "YlGnBu"),
  ("seq_pubugn", .mpl "PuBuGn"),
  ("seq_gnbu", .mpl "GnBu"),
  ("seq_blues", .mpl "Blues"),
  ("seq_oranges", .mpl "Oranges"),
  ("div_rdyblu_r", .mpl "RdYlBu_r"),
  ("div_coolwarm", .mpl "coolwarm"),
  ("div_spectral", .mpl "Spectral"),
  ("div_brbg", .mpl "BrBG"),
  ("div_piyg", .mpl "PiYG"),
  ("div_prgn", .mpl "PRGn"),
  ("div_puor", .mpl "PuOr"),
  ("div_rdbu", .mpl "RdBu"),
  ("season_spring", .colors ["#f7fcf5", "#d9f0d3", "#a6dba0", "#5aae61", "#1b7837"]),
  ("season_summer", .colors ["#f7fbff", "#deebf7", "#9ecae1", "#4292c6", "#08519c"]),
  ("season_autumn", .colors ["#fff5eb", "#fee6ce", "#fdae6b", "#e6550d", "#7f2704"]),
  ("season_winter", .colors ["#ffffff", "#e0f3f8", "#abd9e9", "#74add1", "#4575b4"]),
  ("evt_ww_ocean", .colors ["#e0f3f8", "#b2e2e2", "#66c2a4", "#2ca25f", "#006d2c"]),
  ("evt_wd_desert", .colors ["#fff7bc", "#fee391", "#fec44f", "#fe9929", "#d95f0e"]),
  ("evt_cw_polar", .colors ["#f7f4f9", "#d4b9da", "#c994c7", "#756bb1", "#54278f"]),
  ("evt_cd_drought", .colors ["#f7f7f7", "#cccccc", "#969696", "#636363", "#252525"]),
  ("sci_batlow", .colors ["#011959", "#084594", "#2E7FB8", "#65ADC2", "#A3D3A1", "#E4E09B", "#F7CB5A", "#F59D15", "#D14905"]),
  ("sci_oslo", .colors ["#1B2A41", "#274863", "#3C6E8F", "#6297B0", "#93B7C8", "#C4CFD6", "#E6E6E6", "#E7D9C5", "#D2B599"]),
  ("sci_lapaz", .colors ["#2D004B", "#5E2A84", "#8F56B5", "#B583D1", "#D8B6E3", "#E8E2F0", "#D3E6E6", "#A9D4C1", "#6BB68E", "#3A8C5C"]),
  ("sci_hawaii", .colors ["#00184F", "#003D7E", "#0069A6", "#00A2B5", "#25C4A8", "#7CD6A2", "#CFE29E", "#F8DE8A", "#F5C45B", "#E78C2D"]),
  ("sci_tokyo", .colors ["#003C3C", "#0C6666", "#2E8E7D", "#6BAB88", "#A8C08E", "#E0D79F", "#F1C37C", "#E59A5E", "#C46A5B", "#7A3A4E"]),
  ("sci_devon", .colors ["#08306B", "#2171B5", "#6BAED6", "#BDD7E7", "#EFF3FF", "#FEE0B6", "#FDB863", "#E08214", "#B35806", "#7F3B08"]),
  ("sci_ocean_deep", .colors ["#001F3F", "#003F7F", "#005F9F", "#007FBF", "#009FDF", "#20BFE7", "#60D7EF", "#A0E7F7", "#D0F3FB", "#F0FBFF"]),
  ("sci_vik", .colors ["#00204D", "#1B5E9E", "#4FA7F5", "#BFE5FF", "#FFFFFF", "#FFC4C4", "#F66E6E", "#C51313", "#7A0202"]),
  ("sci_broc", .colors ["#2E4A7D", "#4F77A3", "#84A9C0", "#BFD3D9", "#E9ECEC", "#E0D6CD", "#C8B19A", "#A07D60", "#6E4E3A"]),
  ("sci_cork", .colors ["#2C6B6F", "#3F8F8F", "#7FBFB1", "#D8EFE8", "#F6F6F6", "#E9D4EA", "#C29ACB", "#8A5EA8", "#5B2C7F"]),
  ("sci_roma", .colors ["#5C0000", "#A82E2E", "#D97C7C", "#F2C6C6", "#F7F7F7", "#C7D8F2", "#81A6D9", "#2C63A8", "#002B6C"]),
  ("sci_burl", .colors ["#6E3B22", "#9B623A", "#C9936B", "#E6C7A3", "#F3EFE7", "#CAD7E3", "#96B1CC", "#5E7CA3", "#2E4E73"]),
  ("sci_greenmagenta", .colors ["#0B775E", "#3BA091", "#84CDBD", "#D6ECE1", "#F7F7F7", "#E7D5E8", "#C39BC7", "#985EA1", "#6B1F7C"]),
  ("sci_ice", .colors ["#f7fcfd", "#e0f3f8", "#ccece6", "#99d8c9", "#66c2a4", "#41ae76", "#238b45", "#006d2c", "#00441b"]),
  ("sci_deepsea", .colors ["#001020", "#001F3A", "#00335B", "#004C7A", "#00669A", "#1987B8", "#4FA9CF", "#89C8E0", "#BFE0EE", "#E6F4F9"]),
  ("cyc_twilight", .mpl "twilight"),
  ("mono_grey", .colors ["#ffffff", "#ededed", "#d9d9d9", "#bfbfbf", "#999999", "#6b6b6b", "#3b3b3b"]),
  ("mono_red", .colors ["#fff5f5", "#fccfcf", "#f79a9a", "#ef6b6b", "#d63b3b", "#a92020", "#6d0f0f"]),
  ("mono_orange", .colors ["#fff6ea", "#ffd9b5", "#ffbd7a", "#ff9f3a", "#ed7a00", "#b75a00", "#6e3700"]),
  ("mono_gold", .colors ["#fffce6", "#fff2a8", "#ffe36b", "#ffd138", "#f0b400", "#b98900", "#6f4f00"]),
  ("mono_green", .colors ["#f1fbf3", "#ccefd5", "#9adfae", "#63c986", "#2ea35f", "#177a41", "#0c4f29"]),
  ("mono_teal", .colors ["#effaf9", "#c9ece8", "#93d6cf", "#5dbbb3", "#2a9893", "#187376", "#0b4b4f"]),
  ("mono_cyan", .colors ["#f0fbff", "#c9ecfb", "#93d5f5", "#59b7e6", "#2a92c6", "#176a97", "#0b435f"]),
  ("mono_blue", .colors ["#f3f7ff", "#d3e0ff", "#a9c2ff", "#7aa0f5", "#4b7bdb", "#2b56b0", "#18336d"]),
  ("mono_indigo", .colors ["#f5f5ff", "#d7d7fa", "#b1b1f0", "#8484df", "#5a5ac0", "#3b3b97", "#24245f"]),
  ("mono_purple", .colors ["#fcf5ff", "#ead7fb", "#d0b1f0", "#b184df", "#8e5ac0", "#6a3b97", "#40245f"]),
  ("mono_magenta", .colors ["#fff0fa", "#f8c6e8", "#ee99d2", "#df6bb6", "#c13b93", "#8f1f6e", "#551445"]),
  ("mono_pink", .colors ["#fff2f6", "#ffd0dd", "#ffabc3", "#ff84a8", "#f4578c", "#c6366d", "#7a2043"]),
  ("mono_brown", .colors ["#fbf6f2", "#ead9cc", "#d4b99d", "#ba946d", "#976f49", "#6e4d2f", "#402c19"])]

/-- First-match lookup in an association list (Python `dict.get` /
`dict` key test; the registry and cache dicts have unique keys, so
first-match equals dict lookup). -/
def alookup (k : String) : List (String × α) → Option α
  | [] => none
  | (k', v) :: rest => if k' = k then some v else alookup k rest

/-- The `_CMAP_OBJECT_CACHE` module global: key → resolved colormap object.
`dict[key] = value` is modelled by consing, which `alookup` reads back
first. -/
abbrev CmapCache := List (String × Cmap)

/-- Model of `mpl_cm.get_cmap(name)`: the colormap object for a known name, an
exception (`none`) otherwise. -/
def mpl_get_cmap (known : List String) (name : String) : Option Cmap :=
  if name ∈ known then some (Cmap.mplNamed name) else none

/-- The default colormap the `except` branches substitute:
`mpl_cm.get_cmap("viridis")` (always present in Matplotlib's registry). -/
def viridis_default : Cmap := Cmap.mplNamed "viridis"

/-- The resolver `resolve_cmap(cmap_key_or_name)` (`src/colormaps.py` lines 135-169),
with the `_CMAP_OBJECT_CACHE` state passed explicitly: returns the resolved
colormap object and the updated cache.
* cache hit → cached object, cache unchanged;
* key not in `CMAP_REGISTRY` → try `mpl_cm.get_cmap(key)`, on exception fall
  back to viridis; cache and return;
* registry entry with `"mpl"` name → `mpl_cm.get_cmap(name)`, on exception
  viridis; entry with `"colors"` →
  `LinearSegmentedColormap.from_list(key, colors, N=256)`; cache and
  return. -/
def resolve_cmap (known : List String) (cache : CmapCache) (key : String) :
    Cmap × CmapCache :=
  match alookup key cache with
  | some c => (c, cache)
  | none =>
    match alookup key CMAP_REGISTRY with
    | none =>
      match mpl_get_cmap known key with
      | some c => (c, (key, c) :: cache)
      | none => (viridis_default, (key, viridis_default) :: cache)
    | some (CmapEntry.mpl name) =>
      match mpl_get_cmap known name with
      | some c => (c, (key, c) :: cache)
      | none => (viridis_default, (key, viridis_default) :: cache)
    | some (CmapEntry.colors cs) =>
      let c := Cmap.segmented key cs
      (c, (key, c) :: cache)

/-! ## Helper lemmas -/

theorem nanminL_eq_none_iff (xs : List ℚ) : nanminL xs = none ↔ xs = [] := by
  cases xs with
  | nil => simp [nanminL]
  | cons x xs =>
    cases h : nanminL xs <;> simp [nanminL, h]

theorem nanmaxL_eq_none_iff (xs : List ℚ) : nanmaxL xs = none ↔ xs = [] := by
  cases xs with
  | nil => simp [nanmaxL]
  | cons x xs =>
    cases h : nanmaxL xs <;> simp [nanmaxL, h]

theorem nanminL_mem {xs : List ℚ} {m : ℚ} (h : nanminL xs = some m) :
    m ∈ xs := by
  induction xs generalizing m with
  | nil => simp [nanminL] at h
  | cons x xs ih =>
    rw [nanminL] at h
    cases hx : nanminL xs with
    | none =>
      rw [hx] at h
      simp_all
    | some m' =>
      rw [hx] at h
      simp only [Option.some.injEq] at h
      rw [List.mem_cons]
      rcases le_total x m' with hle | hle
      · left
        rw [← h, min_eq_left hle]
      · right
        rw [← h, min_eq_right hle]
        exact ih hx

theorem nanminL_le {xs : List ℚ} {m : ℚ} (h : nanminL xs = some m) :
    ∀ x ∈ xs, m ≤ x := by
  induction xs generalizing m with
  | nil => simp
  | cons x xs ih =>
    rw [nanminL] at h
    cases hx : nanminL xs with
    | none =>
      rw [hx] at h
      have hnil : xs = [] := (nanminL_eq_none_iff xs).1 hx
      subst hnil
      simp_all
    | some m' =>
      rw [hx] at h
      simp only [Option.some.injEq] at h
      intro y hy
      rcases List.mem_cons.1 hy with hy | hy
      · rw [← h, hy]; exact min_le_left _ _
      · calc m ≤ m' := by rw [← h]; exact min_le_right _ _
          _ ≤ y := ih hx y hy

theorem nanmaxL_mem {xs : List ℚ} {m : ℚ} (h : nanmaxL xs = some m) :
    m ∈ xs := by
  induction xs generalizing m with
  | nil => simp [nanmaxL] at h
  | cons x xs ih =>
    rw [nanmaxL] at h
    cases hx : nanmaxL xs with
    | none =>
      rw [hx] at h
      simp_all
    | some m' =>
      rw [hx] at h
      simp only [Option.some.injEq] at h
      rw [List.mem_cons]
      rcases le_total x m' with hle | hle
      · right
        rw [← h, max_eq_right hle]
        exact ih hx
      · left
        rw [← h, max_eq_left hle]

theorem nanmaxL_ge {xs : List ℚ} {m : ℚ} (h : nanmaxL xs = some m) :
    ∀ x ∈ xs, x ≤ m := by
  induction xs generalizing m with
  | nil => simp
  | cons x xs ih =>
    rw [nanmaxL] at h
    cases hx : nanmaxL xs with
    | none =>
      rw [hx] at h
      have hnil : xs = [] := (nanmaxL_eq_none_iff xs).1 hx
      subst hnil
      simp_all
    | some m' =>
      rw [hx] at h
      simp only [Option.some.injEq] at h
      intro y hy
      rcases List.mem_cons.1 hy with hy | hy
      · rw [← h, hy]; exact le_max_left _ _
      · calc y ≤ m' := ih hx y hy
          _ ≤ m := by rw [← h]; exact le_max_right _ _

theorem nanminL_isSome_of_ne_nil {xs : List ℚ} (h : xs ≠ []) :
    ∃ m, nanminL xs = some m := by
  cases hx : nanminL xs with
  | none => exact absurd ((nanminL_eq_none_iff xs).1 hx) h
  | some m => exact ⟨m, rfl⟩

theorem nanmaxL_isSome_of_ne_nil {xs : List ℚ} (h : xs ≠ []) :
    ∃ m, nanmaxL xs = some m := by
  cases hx : nanmaxL xs with
  | none => exact absurd ((nanmaxL_eq_none_iff xs).1 hx) h
  | some m => exact ⟨m, rfl⟩

/-! ## Claim theorems -/

/-- C1: every cell of `read_project_clip`'s output that lies outside the
boundary polygon mask is the NaN sentinel, for any input raster (any
reprojected array), any boundary mask, any period and either annualize flag;
in particular, when the raster and the boundary do not intersect (the
rasterized mask is everywhere `False`) the result is an all-sentinel grid —
the masking expression `np.where(mask, arr, np.nan)` is total, so no error
is raised. -/
theorem read_project_clip_outside_mask_sentinel {h w : ℕ}
    (arr : Fin h → Fin w → Cell) (mask : Fin h → Fin w → Bool)
    (year_start year_end : ℤ) (as_yearly : Bool) :
    (∀ i j, mask i j = false →
       read_project_clip arr mask year_start year_end as_yearly i j = none) ∧
    ((∀ i j, mask i j = false) →
       ∀ i j, read_project_clip arr mask year_start year_end as_yearly i j = none) := by
  constructor
  · intro i j hm
    cases as_yearly <;> simp [read_project_clip, mask_clip, hm]
  · intro hall i j
    cases as_yearly <;> simp [read_project_clip, mask_clip, hall i j]

/-- Witness for C1: a concrete 1×1 grid holding the finite value 5 whose
single cell lies outside the boundary mask comes back as the sentinel. -/
theorem read_project_clip_outside_mask_sentinel_witness :
    read_project_clip (h := 1) (w := 1) (fun _ _ => some 5) (fun _ _ => false)
      2000 2004 true 0 0 = none :=
  (read_project_clip_outside_mask_sentinel (fun _ _ => some 5)
    (fun _ _ => false) 2000 2004 true).1 0 0 rfl

/-- C10: toggling the annualize flag never changes which cells are finite:
the division by `span = max(1, year_end - year_start + 1)` happens after
masking, maps the sentinel to the sentinel and finite values to finite
values, and its divisor is at least 1. -/
theorem read_project_clip_annualize_preserves_finite {h w : ℕ}
    (arr : Fin h → Fin w → Cell) (mask : Fin h → Fin w → Bool)
    (year_start year_end : ℤ) :
    (∀ i j, (read_project_clip arr mask year_start year_end true i j).isSome
          = (read_project_clip arr mask year_start year_end false i j).isSome) ∧
    1 ≤ annual_span year_start year_end := by
  constructor
  · intro i j
    simp [read_project_clip]
  · exact le_max_left _ _

/-- C2: in shared mode over a non-empty list of panel grids each containing
at least one finite cell, the computed shared range (lines 965-967 of
`src/plotting.py`) has `vmin` equal to the minimum finite value across all
grids and `vmax` equal to the user override when given, else the maximum
finite value across all grids; when that range is non-degenerate it is the
range used (`shared_range`). -/
theorem shared_range_spec (gs : List (List Cell)) (share_vmax : Option ℚ)
    (hne : gs ≠ []) (hfin : ∀ g ∈ gs, finite_vals g ≠ []) :
    ∃ m M : ℚ,
      global_nanmin gs = some m ∧ global_nanmax gs = some M ∧
      (∃ g ∈ gs, m ∈ finite_vals g) ∧
      (∀ g ∈ gs, ∀ x ∈ finite_vals g, m ≤ x) ∧
      (∃ g ∈ gs, M ∈ finite_vals g) ∧
      (∀ g ∈ gs, ∀ x ∈ finite_vals g, x ≤ M) ∧
      shared_range_core gs share_vmax = (some m, some (share_vmax.getD M)) ∧
      (m < share_vmax.getD M →
        shared_range gs share_vmax = (m, share_vmax.getD M)) := by
  have hempty : gs.isEmpty = false := by
    cases gs with
    | nil => exact absurd rfl hne
    | cons a l => rfl
  obtain ⟨g0, hg0⟩ : ∃ g, g ∈ gs := by
    cases gs with
    | nil => exact absurd rfl hne
    | cons a l => exact ⟨a, List.mem_cons_self a l⟩
  have hls_min : gs.filterMap grid_nanmin ≠ [] := by
    intro hnil
    obtain ⟨m0, hm0⟩ := nanminL_isSome_of_ne_nil (hfin g0 hg0)
    have := (List.filterMap_eq_nil_iff.1 hnil) g0 hg0
    rw [grid_nanmin, hm0] at this
    exact Option.some_ne_none _ this
  have hls_max : gs.filterMap grid_nanmax ≠ [] := by
    intro hnil
    obtain ⟨m0, hm0⟩ := nanmaxL_isSome_of_ne_nil (hfin g0 hg0)
    have := (List.filterMap_eq_nil_iff.1 hnil) g0 hg0
    rw [grid_nanmax, hm0] at this
    exact Option.some_ne_none _ this
  obtain ⟨m, hm⟩ := nanminL_isSome_of_ne_nil hls_min
  obtain ⟨M, hM⟩ := nanmaxL_isSome_of_ne_nil hls_max
  refine ⟨m, M, hm, hM, ?_, ?_, ?_, ?_, ?_, ?_⟩
  · obtain ⟨g, hg, hgm⟩ := List.mem_filterMap.1 (nanminL_mem hm)
    exact ⟨g, hg, nanminL_mem hgm⟩
  · intro g hg x hx
    obtain ⟨mg, hmg⟩ := nanminL_isSome_of_ne_nil (hfin g hg)
    have hmem : mg ∈ gs.filterMap grid_nanmin :=
      List.mem_filterMap.2 ⟨g, hg, by rw [grid_nanmin, hmg]⟩
    exact le_trans (nanminL_le hm mg hmem) (nanminL_le hmg x hx)
  · obtain ⟨g, hg, hgm⟩ := List.mem_filterMap.1 (nanmaxL_mem hM)
    exact ⟨g, hg, nanmaxL_mem hgm⟩
  · intro g hg x hx
    obtain ⟨mg, hmg⟩ := nanmaxL_isSome_of_ne_nil (hfin g hg)
    have hmem : mg ∈ gs.filterMap grid_nanmax :=
      List.mem_filterMap.2 ⟨g, hg, by rw [grid_nanmax, hmg]⟩
    exact le_trans (nanmaxL_ge hmg x hx) (nanmaxL_ge hM mg hmem)
  · cases share_vmax with
    | none => simp [shared_range_core, hempty, global_nanmin, global_nanmax, hm, hM]
    | some v => simp [shared_range_core, hempty, global_nanmin, hm]
  · intro hlt
    have hcore : shared_range_core gs share_vmax
        = (some m, some (share_vmax.getD M)) := by
      cases share_vmax with
      | none =>
        simp [shared_range_core, hempty, global_nanmin, global_nanmax, hm, hM]
      | some v => simp [shared_range_core, hempty, global_nanmin, hm]
    rw [shared_range, hcore, clamp_range, if_pos hlt]

/-- Witness for C2, the spec's scenario: panels with finite ranges `(0, 10)`
and `(5, 20)`, shared mode, no override, give the shared range `(0, 20)`. -/
theorem shared_range_spec_witness :
    shared_range [[some 0, some 10], [some 5, some 20]] none = (0, 20) := by
  obtain ⟨m, M, hm, hM, _, _, _, _, _, hfinal⟩ :=
    shared_range_spec [[some 0, some 10], [some 5, some 20]] none
      (by decide) (by decide)
  have hm0 : m = 0 := by
    have : some m = some (0 : ℚ) := by
      rw [← hm]; decide
    exact Option.some_injective _ this
  have hM0 : M = 20 := by
    have : some M = some (20 : ℚ) := by
      rw [← hM]; decide
    exact Option.some_injective _ this
  subst hm0; subst hM0
  exact hfinal (by norm_num)

/-- The degenerate-range guard: when either bound is the NaN sentinel or the
bounds are out of order, the range collapses to `(0, 1)`. -/
theorem clamp_range_fallback (p : Option ℚ × Option ℚ)
    (h : p.1 = none ∨ p.2 = none ∨ ∃ a b, p = (some a, some b) ∧ b ≤ a) :
    clamp_range p = (0, 1) := by
  obtain ⟨p1, p2⟩ := p
  rcases h with h | h | ⟨a, b, hab, hba⟩
  · simp only at h
    subst h
    cases p2 <;> rfl
  · simp only at h
    subst h
    cases p1 <;> rfl
  · rw [hab, clamp_range, if_neg (not_lt.mpr hba)]

/-- C3: in every normalization mode (single-map, shared across panels and
per-panel), a degenerate (`vmin >= vmax`) or non-finite computed range —
including the all-sentinel-grid case — is replaced by exactly `(0, 1)`. -/
theorem degenerate_range_fallback :
    (∀ arr vmin0 vmax0,
       ((single_map_range_core arr vmin0 vmax0).1 = none ∨
        (single_map_range_core arr vmin0 vmax0).2 = none ∨
        (∃ a b, single_map_range_core arr vmin0 vmax0 = (some a, some b) ∧
          b ≤ a)) →
       single_map_range arr vmin0 vmax0 = (0, 1)) ∧
    (∀ gs share_vmax,
       ((shared_range_core gs share_vmax).1 = none ∨
        (shared_range_core gs share_vmax).2 = none ∨
        (∃ a b, shared_range_core gs share_vmax = (some a, some b) ∧
          b ≤ a)) →
       shared_range gs share_vmax = (0, 1)) ∧
    (∀ arr auto pct,
       (panel_range_core arr auto pct).2 ≤ (panel_range_core arr auto pct).1 →
       panel_range arr auto pct = (0, 1)) ∧
    (∀ arr : List Cell, finite_vals arr = [] →
       single_map_range arr none none = (0, 1) ∧
       ∀ auto pct, panel_range arr auto pct = (0, 1)) ∧
    (∀ gs share_vmax, gs ≠ [] → (∀ g ∈ gs, finite_vals g = []) →
       shared_range gs share_vmax = (0, 1)) := by
  refine ⟨?_, ?_, ?_, ?_, ?_⟩
  · intro arr vmin0 vmax0 h
    exact clamp_range_fallback _ h
  · intro gs share_vmax h
    exact clamp_range_fallback _ h
  · intro arr auto pct h
    rw [panel_range]
    exact if_neg (not_lt.mpr h)
  · intro arr hsent
    constructor
    · apply clamp_range_fallback
      left
      simp [single_map_range_core, grid_nanmin, hsent, nanminL]
    · intro auto pct
      have hempty : (finite_vals arr).isEmpty = true := by
        rw [hsent]; rfl
      rw [panel_range, panel_range_core]
      simp only [hempty]
      norm_num
  · intro gs share_vmax hne hsent
    apply clamp_range_fallback
    left
    have : gs.filterMap grid_nanmin = [] := by
      apply List.filterMap_eq_nil_iff.2
      intro g hg
      rw [grid_nanmin, hsent g hg]
      rfl
    have hempty : gs.isEmpty = false := by
      cases gs with
      | nil => exact absurd rfl hne
      | cons a l => rfl
    simp [shared_range_core, hempty, global_nanmin, this, nanminL]

/-- Witness for C3, the spec's scenario: a grid whose every finite cell
equals 5 computes the degenerate range `(5, 5)`, which per-panel
normalization coerces to `(0, 1)`. -/
theorem degenerate_range_fallback_witness :
    panel_range_core [some 5, some 5] false none = (5, 5) ∧
    panel_range [some 5, some 5] false none = (0, 1) :=
  ⟨by decide,
   degenerate_range_fallback.2.2.1 [some 5, some 5] false none (by decide)⟩

theorem nanpercentile_isSome_of_ne_nil {xs : List ℚ} (h : xs ≠ []) (q : ℚ) :
    ∃ v, nanpercentile xs q = some v := by
  obtain ⟨y, ys, hys⟩ : ∃ y ys, xs.mergeSort (fun a b => a ≤ b) = y :: ys := by
    cases hms : xs.mergeSort (fun a b => a ≤ b) with
    | nil =>
      have hp := List.mergeSort_perm xs (fun a b => a ≤ b)
      rw [hms] at hp
      exact absurd hp.symm.eq_nil h
    | cons y ys => exact ⟨y, ys, rfl⟩
  simp only [nanpercentile, hys]
  exact ⟨_, rfl⟩

/-- C9: in per-panel normalization of a grid with at least one finite cell,
when a percentile cap is given (auto-vmax off and a percentile value passed)
the computed `vmax_i` is `np.nanpercentile` of exactly the grid's finite
cells; with no percentile the computed `vmax_i` is the finite maximum; and
an all-sentinel grid yields the `(0, 1)` fallback range. -/
theorem panel_range_percentile_spec (arr : List Cell) (q : ℚ) :
    (finite_vals arr ≠ [] →
       some (panel_range_core arr false (some q)).2
         = nanpercentile (finite_vals arr) q) ∧
    (finite_vals arr ≠ [] → ∀ auto : Bool,
       (panel_range_core arr auto none).2 ∈ finite_vals arr ∧
       ∀ x ∈ finite_vals arr, x ≤ (panel_range_core arr auto none).2) ∧
    (finite_vals arr = [] →
       ∀ auto pct, panel_range arr auto pct = (0, 1)) := by
  refine ⟨?_, ?_, ?_⟩
  · intro hval
    have hEmpty : (finite_vals arr).isEmpty = false := by
      cases hfv : finite_vals arr with
      | nil => exact absurd hfv hval
      | cons a l => rfl
    obtain ⟨v, hv⟩ := nanpercentile_isSome_of_ne_nil hval q
    simp [panel_range_core, hEmpty, hv]
  · intro hval auto
    have hEmpty : (finite_vals arr).isEmpty = false := by
      cases hfv : finite_vals arr with
      | nil => exact absurd hfv hval
      | cons a l => rfl
    obtain ⟨M, hM⟩ := nanmaxL_isSome_of_ne_nil hval
    have hvmax : (panel_range_core arr auto none).2 = M := by
      simp [panel_range_core, hEmpty, hM]
    rw [hvmax]
    exact ⟨nanmaxL_mem hM, nanmaxL_ge hM⟩
  · intro hsent auto pct
    have hEmpty : (finite_vals arr).isEmpty = true := by
      rw [hsent]; rfl
    rw [panel_range, panel_range_core]
    simp only [hEmpty]
    norm_num

/-- Witness for C9: the grid `[1, NaN, 3]` with the 50th-percentile cap; the
finite cells are `[1, 3]` and the computed `vmax_i` is their median 2. -/
theorem panel_range_percentile_spec_witness :
    some (panel_range_core [some 1, none, some 3] false (some 50)).2
      = nanpercentile (finite_vals [some 1, none, some 3]) 50 ∧
    (panel_range_core [some 1, none, some 3] false (some 50)).2 = 2 := by
  have h1 := (panel_range_percentile_spec [some 1, none, some 3] 50).1 (by decide)
  refine ⟨h1, ?_⟩
  have hfv : finite_vals [some 1, none, some 3] = [1, 3] := by decide
  have hms : List.mergeSort [(1 : ℚ), 3] (fun a b => a ≤ b) = [1, 3] := by
    norm_num [List.mergeSort, List.merge]
  rw [hfv] at h1
  have h2 : nanpercentile [(1 : ℚ), 3] 50 = some 2 := by
    simp only [nanpercentile, hms]
    norm_num
  rw [h2] at h1
  exact Option.some_injective _ h1

theorem linspace_getElem? (a b : ℚ) (n i : ℕ) (hi : i < n) :
    (linspace a b n)[i]? = some (a + (b - a) * (i : ℚ) / ((n : ℚ) - 1)) := by
  rw [linspace, List.getElem?_map, List.getElem?_range hi]
  rfl

theorem linspace_length (a b : ℚ) (n : ℕ) : (linspace a b n).length = n := by
  simp [linspace]

theorem colorbar_ticks_getElem? (a b : ℚ) (n : ℕ) (hn : 2 ≤ n) (i : ℕ)
    (hi : i < n) :
    (colorbar_ticks a b n)[i]?
      = some (a + (b - a) * (i : ℚ) / ((n : ℚ) - 1)) := by
  have hone : 1 ≤ n := le_trans (by norm_num) hn
  have hcast : ((n - 1 : ℕ) : ℚ) = (n : ℚ) - 1 := by
    push_cast [Nat.cast_sub hone]
    ring
  have hne : ((n : ℚ) - 1) ≠ 0 := by
    have h2 : (2 : ℚ) ≤ (n : ℚ) := by exact_mod_cast hn
    intro hzero
    rw [sub_eq_zero] at hzero
    rw [hzero] at h2
    norm_num at h2
  rw [colorbar_ticks, List.getElem?_set, List.getElem?_set]
  by_cases hlast : n - 1 = i
  · rw [if_pos hlast, List.length_set, linspace_length,
      if_pos (by omega : n - 1 < n)]
    subst hlast
    rw [hcast, mul_div_assoc, div_self hne]
    norm_num
  · rw [if_neg hlast]
    by_cases hfirst : 0 = i
    · rw [if_pos hfirst, linspace_length, if_pos (by omega : 0 < n)]
      rw [← hfirst]
      norm_num
    · rw [if_neg hfirst, linspace_getElem? a b n i hi]

/-- C5: for every value range `(vmin, vmax)` with `vmin < vmax` and every
tick count `N ≥ 2`, the colorbar tick list
(`np.linspace(vmin, vmax, N)` with forced endpoints) has exactly `N`
entries, evenly spaced (`ticks[i] = vmin + (vmax-vmin) * i/(N-1)`), all
between `vmin` and `vmax` inclusive, with the first exactly `vmin` and the
last exactly `vmax`. -/
theorem colorbar_ticks_spec (a b : ℚ) (n : ℕ) (hab : a < b) (hn : 2 ≤ n) :
    (colorbar_ticks a b n).length = n ∧
    (colorbar_ticks a b n).head? = some a ∧
    (colorbar_ticks a b n).getLast? = some b ∧
    (∀ i, i < n → (colorbar_ticks a b n)[i]?
        = some (a + (b - a) * (i : ℚ) / ((n : ℚ) - 1))) ∧
    (∀ x ∈ colorbar_ticks a b n, a ≤ x ∧ x ≤ b) := by
  have hlen : (colorbar_ticks a b n).length = n := by
    simp [colorbar_ticks, linspace]
  have hba : (0 : ℚ) < b - a := sub_pos.mpr hab
  have hn1 : (0 : ℚ) < (n : ℚ) - 1 := by
    have h2 : (2 : ℚ) ≤ (n : ℚ) := by exact_mod_cast hn
    linarith
  refine ⟨hlen, ?_, ?_, fun i hi => colorbar_ticks_getElem? a b n hn i hi, ?_⟩
  · rw [List.head?_eq_getElem?, colorbar_ticks_getElem? a b n hn 0 (by omega)]
    norm_num
  · rw [List.getLast?_eq_getElem?, hlen,
      colorbar_ticks_getElem? a b n hn (n - 1) (by omega)]
    have hcast : ((n - 1 : ℕ) : ℚ) = (n : ℚ) - 1 := by
      push_cast [Nat.cast_sub (by omega : 1 ≤ n)]
      ring
    rw [hcast, mul_div_assoc, div_self (ne_of_gt hn1)]
    norm_num
  · intro x hx
    obtain ⟨i, hi⟩ := List.mem_iff_getElem?.1 hx
    have hilen : i < n := by
      obtain ⟨hlt, _⟩ := List.getElem?_eq_some.1 hi
      exact hlen ▸ hlt
    rw [colorbar_ticks_getElem? a b n hn i hilen] at hi
    have hx' : x = a + (b - a) * (i : ℚ) / ((n : ℚ) - 1) :=
      (Option.some_injective _ hi).symm
    have hicast : (i : ℚ) ≤ (n : ℚ) - 1 := by
      have : (i : ℚ) + 1 ≤ (n : ℚ) := by exact_mod_cast hilen
      linarith
    have hnum0 : (0 : ℚ) ≤ (b - a) * (i : ℚ) :=
      mul_nonneg (le_of_lt hba) (Nat.cast_nonneg i)
    constructor
    · rw [hx']
      have : (0 : ℚ) ≤ (b - a) * (i : ℚ) / ((n : ℚ) - 1) :=
        div_nonneg hnum0 (le_of_lt hn1)
      linarith
    · rw [hx']
      have hstep : (b - a) * (i : ℚ) / ((n : ℚ) - 1) ≤ b - a := by
        rw [div_le_iff₀ hn1]
        exact mul_le_mul_of_nonneg_left hicast (le_of_lt hba)
      linarith

/-- Witness for C5: range `(0, 2)` with 3 ticks gives exactly 3 ticks with
first tick exactly 0 and last tick exactly 2. -/
theorem colorbar_ticks_spec_witness :
    (colorbar_ticks 0 2 3).length = 3 ∧
    (colorbar_ticks 0 2 3).head? = some 0 ∧
    (colorbar_ticks 0 2 3).getLast? = some 2 := by
  obtain ⟨h1, h2, h3, _, _⟩ :=
    colorbar_ticks_spec 0 2 3 (by norm_num) (by norm_num)
  exact ⟨h1, h2, h3⟩

theorem filter_range_eq_last (n : ℕ) (hn : 1 ≤ n) :
    (List.range n).filter (fun i => decide (i = n - 1)) = [n - 1] := by
  obtain ⟨m, rfl⟩ : ∃ m, n = m + 1 := ⟨n - 1, by omega⟩
  rw [List.range_succ, List.filter_append]
  have h1 : (List.range m).filter (fun i => decide (i = m + 1 - 1)) = [] := by
    apply List.filter_eq_nil_iff.2
    intro i hi
    have : i < m := List.mem_range.1 hi
    simp only [decide_eq_true_eq]
    omega
  have h2 : List.filter (fun i => decide (i = m + 1 - 1)) [m] = [m] := by
    simp
  rw [h1, h2, List.nil_append]
  simp

/-- C8: in a multi-panel composition with `n` panels, a shared scale bar
(resp. north indicator) is drawn on exactly one panel — the last in reading
order, loop index `n - 1` — and on no other panel. -/
theorem shared_decoration_drawn_once (n : ℕ) (hn : 1 ≤ n) :
    drawn_panels n (scale_bar_drawn n true) = [n - 1] ∧
    drawn_panels n (north_drawn n true) = [n - 1] ∧
    (drawn_panels n (scale_bar_drawn n true)).length = 1 ∧
    (drawn_panels n (north_drawn n true)).length = 1 := by
  have hs : scale_bar_drawn n true = fun i => decide (i = n - 1) := rfl
  have hd : north_drawn n true = fun i => decide (i = n - 1) := rfl
  have hfilter := filter_range_eq_last n hn
  have h1 : drawn_panels n (scale_bar_drawn n true) = [n - 1] := by
    rw [drawn_panels, hs]
    exact hfilter
  have h2 : drawn_panels n (north_drawn n true) = [n - 1] := by
    rw [drawn_panels, hd]
    exact hfilter
  exact ⟨h1, h2, by rw [h1]; rfl, by rw [h2]; rfl⟩

/-- Witness for C8, the spec's scenario: a 2×3 grid (6 panels) with a shared
scale bar draws it exactly once, on the 6th panel in reading order (loop
index 5, grid cell row 1, column 2). -/
theorem shared_decoration_drawn_once_witness :
    drawn_panels 6 (scale_bar_drawn 6 true) = [5] ∧
    drawn_panels 6 (north_drawn 6 true) = [5] ∧
    panel_pos 3 5 = (1, 2) := by
  obtain ⟨h1, h2, _, _⟩ := shared_decoration_drawn_once 6 (by norm_num)
  exact ⟨h1, h2, by decide⟩

theorem insertSorted_ne_nil (x : String) (l : List String) :
    insertSorted x l ≠ [] := by
  cases l with
  | nil => simp [insertSorted]
  | cons y ys =>
    rw [insertSorted]
    split <;> simp

theorem sortStrings_eq_nil_iff (l : List String) :
    sortStrings l = [] ↔ l = [] := by
  cases l with
  | nil => simp [sortStrings]
  | cons x xs =>
    constructor
    · intro h
      exact absurd h (insertSorted_ne_nil x (sortStrings xs))
    · intro h
      cases h

/-- Counterexample to C4 as stated: the pattern `*.tif` matches the two
files `a.tif` and `b.tif`, yet `resolve_path` does not fail — it returns the
first sorted match `a.tif` (`sorted(glob.glob(path_pattern))[0]`,
`src/geo_io.py` lines 12-16). -/
theorem resolve_path_multi_match_counterexample :
    (glob_matches ["b.tif", "a.tif"] "*.tif").length = 2 ∧
    resolve_path ["b.tif", "a.tif"] "*.tif" = Except.ok "a.tif" :=
  ⟨by decide, rfl⟩

/-- C4 as amended: for a wildcard pattern, `resolve_path` fails with a
"not found" error exactly when the pattern matches no file; when it matches
one or more files it returns the first match in sorted order.  For a
wildcard-free path it returns the absolute path when the file exists and
fails with a "not found" error when it does not. -/
theorem resolve_path_spec (fs : List String) (pat : String) :
    (has_wildcard pat = true →
       (glob_matches fs pat = [] →
          resolve_path fs pat = Except.error ("未找到匹配：" ++ pat)) ∧
       (glob_matches fs pat ≠ [] →
          ∃ m ms, sortStrings (glob_matches fs pat) = m :: ms ∧
            resolve_path fs pat = Except.ok (abspath m))) ∧
    (has_wildcard pat = false →
       (pat ∈ fs → resolve_path fs pat = Except.ok (abspath pat)) ∧
       (pat ∉ fs →
          resolve_path fs pat = Except.error ("文件不存在：" ++ pat))) := by
  constructor
  · intro hw
    constructor
    · intro hmatches
      simp [resolve_path, hw, hmatches, sortStrings]
    · intro hmatches
      cases hsort : sortStrings (glob_matches fs pat) with
      | nil => exact absurd ((sortStrings_eq_nil_iff _).1 hsort) hmatches
      | cons m ms =>
        refine ⟨m, ms, rfl, ?_⟩
        simp [resolve_path, hw, hsort]
  · intro hw
    constructor
    · intro hmem
      simp [resolve_path, hw, hmem]
    · intro hmem
      simp [resolve_path, hw, hmem]

/-- Witness for the amended C4: a file system containing only `a.tif`.
An existing wildcard-free path resolves, a missing wildcard-free path and a
wildcard pattern with zero matches fail with the "not found" errors. -/
theorem resolve_path_spec_witness :
    resolve_path ["a.tif"] "a.tif" = Except.ok "a.tif" ∧
    resolve_path ["a.tif"] "b.tif" = Except.error ("文件不存在：" ++ "b.tif") ∧
    resolve_path ["a.tif"] "*.png" = Except.error ("未找到匹配：" ++ "*.png") := by
  refine ⟨?_, ?_, ?_⟩
  · exact ((resolve_path_spec ["a.tif"] "a.tif").2 (by decide)).1 (by decide)
  · exact ((resolve_path_spec ["a.tif"] "b.tif").2 (by decide)).2 (by decide)
  · exact ((resolve_path_spec ["a.tif"] "*.png").1 (by decide)).1 (by decide)

/-- C6: palette resolution never raises; an identifier that is neither a
`CMAP_REGISTRY` key nor a colormap name known to Matplotlib — `""`
included — resolves to the documented default `viridis` (and is cached as
such).  Totality of `resolve_cmap` is by construction: every branch returns
a colormap, the failing Matplotlib lookups being caught by the `except`
fallbacks. -/
theorem resolve_cmap_unknown_default (known : List String) (cache : CmapCache)
    (key : String)
    (hcache : alookup key cache = none)
    (hreg : alookup key CMAP_REGISTRY = none)
    (hmpl : key ∉ known) :
    (resolve_cmap known cache key).1 = viridis_default ∧
    (resolve_cmap known cache key).2 = (key, viridis_default) :: cache := by
  have hget : mpl_get_cmap known key = none := by
    rw [mpl_get_cmap, if_neg hmpl]
  rw [resolve_cmap, hcache, hreg, hget]
  exact ⟨rfl, rfl⟩

/-- Witness for C6, the spec's scenario: the empty-string identifier (not a
registry key, not a Matplotlib name) resolves to the default palette
without raising. -/
theorem resolve_cmap_unknown_default_witness :
    (resolve_cmap ["viridis"] [] "").1 = viridis_default :=
  (resolve_cmap_unknown_default ["viridis"] [] ""
    (by decide) (by decide) (by decide)).1

/-- C7: `resolve_cmap` is idempotent per identifier: after a first call, any
later call with the same identifier hits the `_CMAP_OBJECT_CACHE` entry
written by the first call and returns the identical colormap object (hence
identical colors for identical input fractions), leaving the cache
unchanged. -/
theorem resolve_cmap_idempotent (known : List String) (cache : CmapCache)
    (key : String) :
    (resolve_cmap known ((resolve_cmap known cache key).2) key).1
      = (resolve_cmap known cache key).1 ∧
    (resolve_cmap known ((resolve_cmap known cache key).2) key).2
      = (resolve_cmap known cache key).2 := by
  have hcons : ∀ (v : Cmap) (l : CmapCache),
      alookup key ((key, v) :: l) = some v := by
    intro v l
    simp [alookup]
  cases hc : alookup key cache with
  | some c => simp [resolve_cmap, hc]
  | none =>
    cases hr : alookup key CMAP_REGISTRY with
    | none =>
      cases hm : mpl_get_cmap known key with
      | some c => simp [resolve_cmap, hc, hr, hm, hcons]
      | none => simp [resolve_cmap, hc, hr, hm, hcons]
    | some entry =>
      cases entry with
      | mpl name =>
        cases hm : mpl_get_cmap known name with
        | some c => simp [resolve_cmap, hc, hr, hm, hcons]
        | none => simp [resolve_cmap, hc, hr, hm, hcons]
      | colors cs => simp [resolve_cmap, hc, hr, hcons]

end PictureOut
